import Mathlib

/-!
Verification development for the telemetry core of `appinsights-rs`
(`src/appinsights/src/telemetry/page_view.rs` and the container/context/contracts
machinery it uses).

Shallow embedding conventions:
* The Rust `BTreeMap`-backed containers (`Properties`, `ContextTags`,
  `Measurements`) are modelled as association lists with unique keys;
  `insertKV` is map insertion (overwrite-or-append) and `lookupKV` is map lookup.
* `f64` measurement values are only stored and moved by this core (no arithmetic),
  so they are modelled by `Rat`.
* `http::Uri` reaches the envelope only through `uri.to_string()`, so a URI is
  modelled by its string form.
* The repository's `time`, `uuid`, `context` and `contracts` modules are not part
  of the excerpt under `src/`; the definitions below that come from them carry a
  `Modelled from the spec:` note and follow the spec's wording and the usage
  visible in `page_view.rs`.
-/

/-- Map lookup on an association list, first match wins (unique-keys invariant
makes the choice irrelevant). Models `BTreeMap::get`. -/
def lookupKV {α : Type} : List (String × α) → String → Option α
  | [], _ => none
  | (k', v) :: rest, k => if k' = k then some v else lookupKV rest k

/-- Map insertion on an association list: overwrite the value when the key is
present, append otherwise. Models `BTreeMap::insert`. -/
def insertKV {α : Type} : List (String × α) → String → α → List (String × α)
  | [], k, v => [(k, v)]
  | (k', v') :: rest, k, v =>
    if k' = k then (k, v) :: rest else (k', v') :: insertKV rest k v

/-- Modelled from the spec: the containers' `combine(base, overlay)` operation
(its implementation lives in the telemetry module, not in the excerpt) —
"start from a copy of `base`; for every key present in `overlay`,
insert/overwrite the value in the result with overlay's value". -/
def combineKV {α : Type} : List (String × α) → List (String × α) → List (String × α)
  | base, [] => base
  | base, (k, v) :: rest => combineKV (insertKV base k v) rest

/-- `Properties`: mapping from string key to string value. -/
abbrev Properties := List (String × String)

/-- `ContextTags`: mapping from string key to string value. -/
abbrev ContextTags := List (String × String)

/-- Measurement values: `f64` in the source, modelled by `Rat` since this core
only stores and moves them. -/
abbrev F64 := Rat

/-- `Measurements`: mapping from string key to 64-bit float value. -/
abbrev Measurements := List (String × F64)

/-- `Properties::combine`. -/
def Properties.combine : Properties → Properties → Properties := combineKV

/-- `ContextTags::combine`. -/
def ContextTags.combine : ContextTags → ContextTags → ContextTags := combineKV

/-- Modelled from the spec: `DateTime<Utc>` with at least millisecond
resolution, as a broken-down UTC instant. -/
structure DateTimeUtc where
  year : Nat
  month : Nat
  day : Nat
  hour : Nat
  minute : Nat
  second : Nat
  milli : Nat
deriving DecidableEq

/-- Zero-pad the decimal rendering of `n` to at least `width` characters. -/
def padNum (width n : Nat) : String :=
  let s := toString n
  String.mk (List.replicate (width - s.length) '0') ++ s

/-- The chrono collaborator's `to_rfc3339_opts(SecondsFormat::Millis, true)`:
RFC3339 with exactly millisecond precision and a literal `Z` suffix. -/
def DateTimeUtc.toRfc3339Millis (t : DateTimeUtc) : String :=
  padNum 4 t.year ++ "-" ++ padNum 2 t.month ++ "-" ++ padNum 2 t.day ++ "T" ++
    padNum 2 t.hour ++ ":" ++ padNum 2 t.minute ++ ":" ++ padNum 2 t.second ++ "." ++
    padNum 3 t.milli ++ "Z"

/-- Modelled from the spec: a `Uuid` (the repository's `uuid` wrapper is not in
the excerpt) as its 128-bit value. -/
structure Uuid where
  val : Nat
deriving DecidableEq

/-- Exactly `width` lowercase hexadecimal digits of `n`, most significant first. -/
def natHexDigits : Nat → Nat → List Char
  | 0, _ => []
  | w + 1, n => natHexDigits w (n / 16) ++ [Nat.digitChar (n % 16)]

/-- Modelled from the spec: `Uuid::as_hyphenated().to_string()` — the lowercase
hyphenated canonical identifier string (8-4-4-4-12 lowercase hex digits). -/
def Uuid.toHyphenatedString (u : Uuid) : String :=
  let d := natHexDigits 32 u.val
  String.mk (d.take 8) ++ "-" ++ String.mk ((d.drop 8).take 4) ++ "-" ++
    String.mk ((d.drop 12).take 4) ++ "-" ++ String.mk ((d.drop 16).take 4) ++ "-" ++
    String.mk (d.drop 20)

/-- Modelled from the spec: the `time::Duration` collaborator; only its string
form reaches the wire, and no claim constrains that grammar, so it is carried
as an abstract tick count. -/
structure Duration where
  ticks : Nat
deriving DecidableEq

/-- Modelled from the spec: `duration` "formatted as wire duration string".
No claim depends on the exact grammar. -/
def Duration.toWireString (d : Duration) : String :=
  toString d.ticks

/-- `TelemetryContext` (the `context` module is not in the excerpt; fields are
those used by `page_view.rs` and described by the spec): instrumentation key,
client-wide default tags, client-wide default properties. -/
structure TelemetryContext where
  i_key : String
  tags : ContextTags
  properties : Properties
deriving DecidableEq

/-- `PageViewTelemetry` (src/appinsights/src/telemetry/page_view.rs, lines 36-62). -/
structure PageViewTelemetry where
  id : Option Uuid
  name : String
  uri : String
  duration : Option Duration
  timestamp : DateTimeUtc
  properties : Properties
  tags : ContextTags
  measurements : Measurements
deriving DecidableEq

/-- `PageViewTelemetry::new` (lines 64-77). The `time::now()` collaborator call
is modelled by the explicit `now` argument: the value the time source returns at
construction. -/
def PageViewTelemetry.new (name uri : String) (now : DateTimeUtc) : PageViewTelemetry :=
  { id := none
    name := name
    uri := uri
    duration := none
    timestamp := now
    properties := []
    tags := []
    measurements := [] }

/-- `PageViewData` (contracts module; fields are those populated by
`page_view.rs`): the page-view payload of an envelope. -/
structure PageViewData where
  name : String
  url : Option String
  duration : Option String
  referrer_uri : Option String
  id : String
  properties : Option Properties
  measurements : Option Measurements
deriving DecidableEq

/-- The `Data` payload union (contracts module), restricted to the variant the
excerpt exercises. -/
inductive TelemetryData where
  | pageViewData : PageViewData → TelemetryData
deriving DecidableEq

/-- The `Base` wrapper (contracts module). -/
inductive BaseData where
  | data : TelemetryData → BaseData
deriving DecidableEq

/-- `Envelope` (contracts module; fields are those populated by `page_view.rs`).
Fields left at `Envelope::default()` by the conversion are not modelled. -/
structure Envelope where
  name : String
  time : String
  i_key : Option String
  tags : Option ContextTags
  data : Option BaseData
deriving DecidableEq

/-- `impl From<(TelemetryContext, PageViewTelemetry)> for Envelope`
(src/appinsights/src/telemetry/page_view.rs, lines 117-140). -/
def Envelope.ofPageView (context : TelemetryContext) (telemetry : PageViewTelemetry) : Envelope :=
  { name := "Microsoft.ApplicationInsights.PageView"
    time := telemetry.timestamp.toRfc3339Millis
    i_key := some context.i_key
    tags := some (ContextTags.combine context.tags telemetry.tags)
    data := some (BaseData.data (TelemetryData.pageViewData
      { name := telemetry.name
        url := some telemetry.uri
        duration := telemetry.duration.map Duration.toWireString
        referrer_uri := none
        id := (telemetry.id.map Uuid.toHyphenatedString).getD ""
        properties := some (Properties.combine context.properties telemetry.properties)
        measurements := some telemetry.measurements })) }

/-- The page-view payload of an envelope, when it carries one. -/
def Envelope.pageViewData? (e : Envelope) : Option PageViewData :=
  match e.data with
  | some (BaseData.data (TelemetryData.pageViewData d)) => some d
  | none => none

/-- The collaborator state the outer client threads through telemetry
processing: the time source's current value and the identifier generator's
state. The conversion body touches neither. -/
structure AmbientState where
  nowValue : DateTimeUtc
  uuidSeed : Nat
deriving DecidableEq

/-- The `From`-conversion seen as a state transformer over the collaborator
state: the source body (lines 117-140) calls neither `time::now` nor the
identifier generator, so the embedding neither reads nor writes the state. -/
def Envelope.ofPageViewSt (context : TelemetryContext) (telemetry : PageViewTelemetry)
    (s : AmbientState) : Envelope × AmbientState :=
  (Envelope.ofPageView context telemetry, s)

/-- A telemetry context with an empty instrumentation key. -/
def ctxEmptyKey : TelemetryContext :=
  { i_key := "", tags := [], properties := [] }

/-- The tests' plain telemetry context: key "instrumentation", no defaults. -/
def ctxPlain : TelemetryContext :=
  { i_key := "instrumentation", tags := [], properties := [] }

/-- A plain page-view variant stamped at the tests' fixed instant. -/
def pvPlain : PageViewTelemetry :=
  PageViewTelemetry.new "page updated" "https://example.com/main.html" ⟨2019, 1, 2, 3, 4, 5, 800⟩

/-- The tag-override test's context: default tags {test: ok, no-write: fail}. -/
def ctxTagsTest : TelemetryContext :=
  { i_key := "instrumentation"
    tags := insertKV (insertKV [] "test" "ok") "no-write" "fail"
    properties := [] }

/-- The tag-override test's variant: tags {no-write: ok}. -/
def pvTagsTest : PageViewTelemetry :=
  { PageViewTelemetry.new "page updated" "https://example.com/main.html" ⟨2019, 1, 2, 3, 4, 5, 700⟩ with
      tags := insertKV [] "no-write" "ok" }

/-- The property-override test's context: default properties
{test: ok, no-write: fail}. -/
def ctxPropsTest : TelemetryContext :=
  { i_key := "instrumentation"
    tags := []
    properties := insertKV (insertKV [] "test" "ok") "no-write" "fail" }

/-- The property-override test's variant: properties {no-write: ok},
measurements {latency: 200.0}. -/
def pvPropsTest : PageViewTelemetry :=
  { PageViewTelemetry.new "page updated" "https://example.com/main.html" ⟨2019, 1, 2, 3, 4, 5, 800⟩ with
      properties := insertKV [] "no-write" "ok"
      measurements := insertKV [] "latency" 200 }

/-- A page-view variant with a concrete correlation id set. -/
def pvWithId : PageViewTelemetry :=
  { pvPlain with id := some ⟨0x0123456789abcdef0123456789abcdef⟩ }

theorem lookupKV_insertKV_self {α : Type} (m : List (String × α)) (k : String) (v : α) :
    lookupKV (insertKV m k v) k = some v := by
  induction m with
  | nil => simp [insertKV, lookupKV]
  | cons kv rest ih =>
    obtain ⟨k₀, v₀⟩ := kv
    by_cases h : k₀ = k
    · simp [insertKV, h, lookupKV]
    · simp [insertKV, h, lookupKV, ih]

theorem lookupKV_insertKV_ne {α : Type} (m : List (String × α)) (k k' : String) (v : α)
    (h : k' ≠ k) : lookupKV (insertKV m k v) k' = lookupKV m k' := by
  induction m with
  | nil => simp [insertKV, lookupKV, Ne.symm h]
  | cons kv rest ih =>
    obtain ⟨k₀, v₀⟩ := kv
    by_cases hk : k₀ = k
    · subst hk
      simp [insertKV, lookupKV, Ne.symm h]
    · by_cases hk' : k₀ = k'
      · simp [insertKV, hk, lookupKV, hk', h]
      · simp [insertKV, hk, lookupKV, hk', ih]

theorem lookupKV_eq_none_of_not_mem {α : Type} (m : List (String × α)) (k : String)
    (h : k ∉ m.map Prod.fst) : lookupKV m k = none := by
  induction m with
  | nil => rfl
  | cons kv rest ih =>
    obtain ⟨k₀, v₀⟩ := kv
    simp only [List.map_cons, List.mem_cons, not_or] at h
    simp [lookupKV, Ne.symm h.1, ih h.2]

theorem lookupKV_combineKV_of_none {α : Type} (base overlay : List (String × α)) (k : String)
    (h : lookupKV overlay k = none) :
    lookupKV (combineKV base overlay) k = lookupKV base k := by
  induction overlay generalizing base with
  | nil => rfl
  | cons kv rest ih =>
    obtain ⟨k₀, v₀⟩ := kv
    by_cases hk : k₀ = k
    · simp [lookupKV, hk] at h
    · simp only [lookupKV, hk, if_false] at h
      rw [show combineKV base ((k₀, v₀) :: rest) = combineKV (insertKV base k₀ v₀) rest from rfl,
        ih _ h, lookupKV_insertKV_ne _ _ _ _ (Ne.symm hk)]

theorem lookupKV_combineKV_of_some {α : Type} (base overlay : List (String × α)) (k : String)
    (v : α) (hnd : (overlay.map Prod.fst).Nodup) (h : lookupKV overlay k = some v) :
    lookupKV (combineKV base overlay) k = some v := by
  induction overlay generalizing base with
  | nil => simp [lookupKV] at h
  | cons kv rest ih =>
    obtain ⟨k₀, v₀⟩ := kv
    simp only [List.map_cons, List.nodup_cons] at hnd
    by_cases hk : k₀ = k
    · subst hk
      simp [lookupKV] at h
      rw [show combineKV base ((k₀, v₀) :: rest) = combineKV (insertKV base k₀ v₀) rest from rfl,
        lookupKV_combineKV_of_none _ _ _ (lookupKV_eq_none_of_not_mem _ _ hnd.1),
        lookupKV_insertKV_self, h]
    · simp only [lookupKV, hk, if_false] at h
      exact ih (insertKV base k₀ v₀) hnd.2 h

/-- Counterexample to claim C1 as stated: with an empty instrumentation key the
claim requires the envelope's instrumentation key field to be absent, but the
conversion wraps the context's key in `some` unconditionally
(`i_key: Some(context.i_key)`), so it is present even here. -/
theorem iKey_claim_counterexample :
    ctxEmptyKey.i_key = "" ∧
      (Envelope.ofPageView ctxEmptyKey pvPlain).i_key = some "" ∧
      (Envelope.ofPageView ctxEmptyKey pvPlain).i_key ≠ none :=
  ⟨rfl, rfl, fun h => Option.noConfusion h⟩

/-- Claim C1 (amended): the envelope's instrumentation key field is always
present, holding the context's instrumentation key verbatim — even when that
key is the empty string. -/
theorem iKey_always_present (context : TelemetryContext) (telemetry : PageViewTelemetry) :
    (Envelope.ofPageView context telemetry).i_key = some context.i_key :=
  rfl

/-- Claim C2: a page-view variant stamped 2019-01-02T03:04:05.800 UTC converts
to an envelope whose `time` field is the literal string
"2019-01-02T03:04:05.800Z" — millisecond precision, no microsecond digits, a
literal Z suffix. -/
theorem time_formatting_fixed_instant (context : TelemetryContext)
    (telemetry : PageViewTelemetry)
    (h : telemetry.timestamp = ⟨2019, 1, 2, 3, 4, 5, 800⟩) :
    (Envelope.ofPageView context telemetry).time = "2019-01-02T03:04:05.800Z" := by
  show telemetry.timestamp.toRfc3339Millis = _
  rw [h]
  decide

/-- Witness for claim C2 at the property-override test's inputs. -/
theorem time_formatting_fixed_instant_witness :
    (Envelope.ofPageView ctxPlain pvPlain).time = "2019-01-02T03:04:05.800Z" :=
  time_formatting_fixed_instant ctxPlain pvPlain rfl

/-- Claim C3: `combine` is a right-biased union for every container kind
(`Properties`, `ContextTags` and `Measurements` are all instances of the
unique-key string-keyed container, so the statement is over an arbitrary value
type): a key present in the overlay maps to the overlay's value in the result,
and a key present only in the base keeps the base's value. -/
theorem combine_right_biased {α : Type} (base overlay : List (String × α)) (k : String)
    (hnd : (overlay.map Prod.fst).Nodup) :
    (∀ v, lookupKV overlay k = some v → lookupKV (combineKV base overlay) k = some v) ∧
      (∀ v, lookupKV overlay k = none → lookupKV base k = some v →
        lookupKV (combineKV base overlay) k = some v) :=
  ⟨fun v h => lookupKV_combineKV_of_some base overlay k v hnd h,
   fun _ h hb => (lookupKV_combineKV_of_none base overlay k h).trans hb⟩

/-- Witness for claim C3: a concrete collision where the overlay wins and a
base-only key that survives. -/
theorem combine_right_biased_witness :
    lookupKV (combineKV [("a", "base"), ("b", "keep")] [("a", "over")]) "a" = some "over" ∧
      lookupKV (combineKV [("a", "base"), ("b", "keep")] [("a", "over")]) "b" = some "keep" :=
  ⟨(combine_right_biased [("a", "base"), ("b", "keep")] [("a", "over")] "a" (by decide)).1
      "over" (by decide),
   (combine_right_biased [("a", "base"), ("b", "keep")] [("a", "over")] "b" (by decide)).2
      "keep" (by decide) (by decide)⟩

/-- Claim C4: the envelope's tags field is the combine of the context's tags
(base) with the variant's tags (overlay), present as such; the variant's value
wins on any colliding key; and when both containers are empty the field is a
present empty map, not absent. -/
theorem envelope_tags_combined (context : TelemetryContext) (telemetry : PageViewTelemetry) :
    (Envelope.ofPageView context telemetry).tags =
        some (ContextTags.combine context.tags telemetry.tags) ∧
      (∀ k v, (telemetry.tags.map Prod.fst).Nodup → lookupKV telemetry.tags k = some v →
        lookupKV (ContextTags.combine context.tags telemetry.tags) k = some v) ∧
      (context.tags = [] → telemetry.tags = [] →
        (Envelope.ofPageView context telemetry).tags = some []) := by
  refine ⟨rfl, ?_, ?_⟩
  · intro k v hnd hv
    exact lookupKV_combineKV_of_some context.tags telemetry.tags k v hnd hv
  · intro hc ht
    show some (ContextTags.combine context.tags telemetry.tags) = some []
    rw [hc, ht]
    rfl

/-- Witness for claim C4: the tag-override test's collision, and the
empty-empty case yielding a present empty map. -/
theorem envelope_tags_combined_witness :
    lookupKV (ContextTags.combine ctxTagsTest.tags pvTagsTest.tags) "no-write" = some "ok" ∧
      (Envelope.ofPageView ctxPlain pvPlain).tags = some [] :=
  ⟨(envelope_tags_combined ctxTagsTest pvTagsTest).2.1 "no-write" "ok" (by decide) (by decide),
   (envelope_tags_combined ctxPlain pvPlain).2.2 rfl rfl⟩

/-- Claim C5: the payload's `id` field is the empty string (a present string,
not an absent field) when the variant has no correlation id, and the lowercase
hyphenated canonical rendering of the id when one is set. -/
theorem payload_id_rendering (context : TelemetryContext) (telemetry : PageViewTelemetry) :
    ((Envelope.ofPageView context telemetry).pageViewData?).map PageViewData.id =
        some ((telemetry.id.map Uuid.toHyphenatedString).getD "") ∧
      (telemetry.id = none →
        ((Envelope.ofPageView context telemetry).pageViewData?).map PageViewData.id =
          some "") ∧
      (∀ u, telemetry.id = some u →
        ((Envelope.ofPageView context telemetry).pageViewData?).map PageViewData.id =
          some u.toHyphenatedString) := by
  refine ⟨rfl, ?_, ?_⟩
  · intro h
    simp [Envelope.ofPageView, Envelope.pageViewData?, h]
  · intro u h
    simp [Envelope.ofPageView, Envelope.pageViewData?, h]

/-- Witness for claim C5: with no id the payload id is the empty string; with a
concrete id it is the lowercase hyphenated 8-4-4-4-12 rendering. -/
theorem payload_id_rendering_witness :
    ((Envelope.ofPageView ctxPlain pvPlain).pageViewData?).map PageViewData.id = some "" ∧
      ((Envelope.ofPageView ctxPlain pvWithId).pageViewData?).map PageViewData.id =
        some "01234567-89ab-cdef-0123-456789abcdef" :=
  ⟨(payload_id_rendering ctxPlain pvPlain).2.1 rfl,
   by
    rw [(payload_id_rendering ctxPlain pvWithId).2.2 ⟨0x0123456789abcdef0123456789abcdef⟩ rfl]
    decide⟩

/-- Claim C6: the property-override scenario — context properties
{test: ok, no-write: fail}, variant properties {no-write: ok}, variant
measurements {latency: 200.0} — produces merged payload properties
{test: ok, no-write: ok}, payload measurements {latency: 200.0}, and empty
envelope tags. -/
theorem property_override_scenario :
    ((Envelope.ofPageView ctxPropsTest pvPropsTest).pageViewData?).map PageViewData.properties =
        some (some [("test", "ok"), ("no-write", "ok")]) ∧
      ((Envelope.ofPageView ctxPropsTest pvPropsTest).pageViewData?).map
          PageViewData.measurements =
        some (some [("latency", 200)]) ∧
      (Envelope.ofPageView ctxPropsTest pvPropsTest).tags = some [] := by
  refine ⟨?_, ?_, rfl⟩ <;> decide

/-- Claim C7: construction yields empty properties, tags and measurements, no
correlation id, no duration, the given name and URI, and the time source's
current value as the timestamp. -/
theorem new_page_view_defaults (name uri : String) (now : DateTimeUtc) :
    (PageViewTelemetry.new name uri now).properties = [] ∧
      (PageViewTelemetry.new name uri now).tags = [] ∧
      (PageViewTelemetry.new name uri now).measurements = [] ∧
      (PageViewTelemetry.new name uri now).id = none ∧
      (PageViewTelemetry.new name uri now).duration = none ∧
      (PageViewTelemetry.new name uri now).timestamp = now ∧
      (PageViewTelemetry.new name uri now).name = name ∧
      (PageViewTelemetry.new name uri now).uri = uri :=
  ⟨rfl, rfl, rfl, rfl, rfl, rfl, rfl, rfl⟩

/-- Claim C8: the conversion is a deterministic function of the
`(Context, Variant)` pair — as a transformer over the collaborator state (time
source, identifier generator) its result does not depend on that state, it
leaves the state unchanged, and two conversions of the same pair agree. -/
theorem conversion_deterministic (context : TelemetryContext) (telemetry : PageViewTelemetry)
    (s₁ s₂ : AmbientState) :
    (Envelope.ofPageViewSt context telemetry s₁).1 =
        (Envelope.ofPageViewSt context telemetry s₂).1 ∧
      (Envelope.ofPageViewSt context telemetry s₁).2 = s₁ ∧
      (Envelope.ofPageViewSt context telemetry s₁).1 = Envelope.ofPageView context telemetry :=
  ⟨rfl, rfl, rfl⟩

/-- Claim C9: the payload's `referrer_uri` field is always absent — the
conversion hard-codes `None` and the variant's public interface offers no way
to set it (the `PageViewTelemetry` record carries no such field). -/
theorem referrer_uri_always_absent (context : TelemetryContext)
    (telemetry : PageViewTelemetry) :
    ((Envelope.ofPageView context telemetry).pageViewData?).map PageViewData.referrer_uri =
      some none :=
  rfl

/-- Claim C10: the payload's `properties` and `measurements` fields are always
present, holding the merged properties and the variant's measurements — also
when those maps are empty. -/
theorem payload_props_meas_always_present (context : TelemetryContext)
    (telemetry : PageViewTelemetry) :
    ((Envelope.ofPageView context telemetry).pageViewData?).map PageViewData.properties =
        some (some (Properties.combine context.properties telemetry.properties)) ∧
      ((Envelope.ofPageView context telemetry).pageViewData?).map PageViewData.measurements =
        some (some telemetry.measurements) :=
  ⟨rfl, rfl⟩
